import Mathlib

/-!
Shallow embedding of the alternate-screen switching core of the crossterm
fragment: `src/common/screen/alternate.rs` (the `AlternateScreen` type with
`to_alternate_screen`, `to_main_screen` and its `Drop` impl) and
`src/crossterm_state/commands/shared_commands.rs` (the escape-sequence
command `ToAlternateScreenBufferCommand` with `execute` / `undo`).

Two levels of model are used:

* a byte level for `shared_commands.rs`: `Stdout` records the bytes written
  to the process standard output (split into a not-yet-flushed buffer and
  the flushed portion, since `write!` on Rust's `Stdout` buffers without
  flushing) together with an injected-write-failure flag;

* an event level for `alternate.rs`: a `World` records the ordered trace of
  terminal-affecting effects (enter/leave alternate buffer, raw mode
  on/off) together with injected-failure flags for each fallible
  collaborator.  The collaborators called by `alternate.rs`
  (`ToAlternateScreenCommand::enable` / `disable`,
  `RawScreen::into_raw_mode`, `Screen::from`) are not among the source
  files, so they are modelled from the spec; the control flow of
  `to_alternate_screen`, `to_main_screen` and `drop` is translated directly
  from `alternate.rs`.
-/

/-- Bytes of the `csi!` macro: the two-byte control sequence introducer
`ESC [` (0x1B, 0x5B) followed by the given argument bytes.
Modelled from the spec: the `csi!` macro is not among the source files; the
spec fixes the sequences bit-exactly as `ESC [ ? 1 0 4 9 h` / `... l`. -/
def csi (args : List Nat) : List Nat := 27 :: 91 :: args

/-- The enter-alternate-screen sequence `ESC [ ? 1 0 4 9 h`. -/
def enterSeq : List Nat := csi [63, 49, 48, 52, 57, 104]

/-- The leave-alternate-screen sequence `ESC [ ? 1 0 4 9 l`. -/
def leaveSeq : List Nat := csi [63, 49, 48, 52, 57, 108]

/-- State of the process standard output stream that
`ToAlternateScreenBufferCommand` writes to via `write!(io::stdout(), ...)`.
`buffered` holds bytes written but not yet flushed (Rust's `Stdout` is
buffered and `write!` does not flush), `flushed` holds bytes already pushed
to the terminal device, and `failWrite` injects an I/O write failure. -/
structure Stdout where
  buffered : List Nat
  flushed : List Nat
  failWrite : Bool
deriving DecidableEq

namespace ToAlternateScreenBufferCommand

/-- `ToAlternateScreenBufferCommand::execute`: `write!(io::stdout(),
csi!("?1049h"))`, mapping `Ok` to `true` and `Err` to `false`.  No flush is
performed.  Translated from `shared_commands.rs`. -/
def execute (out : Stdout) : Stdout × Bool :=
  if out.failWrite then (out, false)
  else ({ out with buffered := out.buffered ++ enterSeq }, true)

/-- `ToAlternateScreenBufferCommand::undo`: `write!(io::stdout(),
csi!("?1049l"))`, mapping `Ok` to `true` and `Err` to `false`.  No flush is
performed, and no state records whether `execute` ever ran.  Translated
from `shared_commands.rs`. -/
def undo (out : Stdout) : Stdout × Bool :=
  if out.failWrite then (out, false)
  else ({ out with buffered := out.buffered ++ leaveSeq }, true)

end ToAlternateScreenBufferCommand

/-- Terminal-affecting effects issued by the alternate-screen core, in
emission order: switch to the alternate buffer, switch back to the main
buffer, enable raw mode, disable raw mode. -/
inductive Ev where
  | enterAlt
  | leaveAlt
  | rawOn
  | rawOff
deriving DecidableEq

/-- World state threaded through the `alternate.rs` operations: the ordered
trace of effects issued to the terminal, plus injected-failure flags for
the three fallible collaborators (`enable`, `into_raw_mode`, `disable`). -/
structure World where
  trace : List Ev
  failEnable : Bool
  failRaw : Bool
  failDisable : Bool
deriving DecidableEq

/-- Terminal interpretation of a trace: whether the alternate buffer is
active after replaying the trace (initially the main buffer is shown). -/
def interpAlt (tr : List Ev) : Bool :=
  tr.foldl
    (fun a e =>
      match e with
      | Ev.enterAlt => true
      | Ev.leaveAlt => false
      | _ => a)
    false

/-- Terminal interpretation of a trace: whether raw mode is active after
replaying the trace (initially the terminal is in cooked mode). -/
def interpRaw (tr : List Ev) : Bool :=
  tr.foldl
    (fun a e =>
      match e with
      | Ev.rawOn => true
      | Ev.rawOff => false
      | _ => a)
    false

namespace ToAlternateScreenCommand

/-- Modelled from the spec: `ToAlternateScreenCommand::enable`, the
escape-sequence backend's apply — it writes the enter-alternate sequence to
the output stream and flushes; on an I/O failure it reports the error with
the terminal unchanged.  The type `ToAlternateScreenCommand` implementing
`IAlternateScreenCommand` is referenced by `alternate.rs` but its
definition is not among the source files. -/
def enable (w : World) : Except Unit World :=
  if w.failEnable then Except.error ()
  else Except.ok { w with trace := w.trace ++ [Ev.enterAlt] }

/-- Modelled from the spec: `ToAlternateScreenCommand::disable`, the
escape-sequence backend's revert — it writes the leave-alternate sequence
to the output stream; on an I/O failure it reports the error with the
terminal unchanged.  Not among the source files (see `enable`). -/
def disable (w : World) : Except Unit World :=
  if w.failDisable then Except.error ()
  else Except.ok { w with trace := w.trace ++ [Ev.leaveAlt] }

end ToAlternateScreenCommand

namespace RawScreen

/-- Modelled from the spec: `RawScreen::into_raw_mode`, the raw-mode
toggle's enable direction — it switches the line discipline to raw, or
fails leaving it unchanged.  `RawScreen` is used by `alternate.rs` but its
definition is not among the source files. -/
def into_raw_mode (w : World) : Except Unit World :=
  if w.failRaw then Except.error ()
  else Except.ok { w with trace := w.trace ++ [Ev.rawOn] }

end RawScreen

/-- The `Screen` wrapper around the terminal output.  Modelled from the
spec: `Screen` is used by `alternate.rs` but its definition is not among
the source files; it only carries the output handle, whose byte effects
live in `World`, so the handle itself is trivial here. -/
structure Screen where
  stdout : Unit
deriving DecidableEq

/-- `Screen::from(stdout)`: wrap the output handle.  (`from` is a Lean
keyword, hence the name `ofOutput`.) -/
def Screen.ofOutput (stdout : Unit) : Screen := { stdout := stdout }

/-- `AlternateScreen` from `alternate.rs`: it stores the boxed backend
command chosen at entry (on non-Windows always the zero-sized shared
escape-sequence command, hence `Unit`) and the `Screen`.  It has no field
recording whether the alternate screen is currently active. -/
structure AlternateScreen where
  command : Unit
  screen : Screen
deriving DecidableEq

namespace AlternateScreen

/-- `AlternateScreen::new`. -/
def new (command : Unit) (screen : Screen) : AlternateScreen :=
  { command := command, screen := screen }

/-- `AlternateScreen::to_alternate_screen` (non-Windows path, the one fully
present in the sources): resolve the shared escape-sequence command, call
`enable` (propagating failure with `?`), wrap the output in a `Screen`,
then if `raw_mode` call `RawScreen::into_raw_mode` (again propagating
failure with `?`, with no compensating `disable`), and finally return the
handle.  Translated from `alternate.rs` lines 38-63. -/
def to_alternate_screen (raw_mode : Bool) (w : World) :
    Except Unit AlternateScreen × World :=
  match ToAlternateScreenCommand.enable w with
  | Except.error _ => (Except.error (), w)
  | Except.ok w1 =>
    let screen := Screen.ofOutput ()
    if raw_mode then
      match RawScreen.into_raw_mode w1 with
      | Except.error _ => (Except.error (), w1)
      | Except.ok w2 => (Except.ok (new () screen), w2)
    else (Except.ok (new () screen), w1)

/-- `AlternateScreen::to_main_screen`: `self.command.disable(&self.screen.stdout)?`.
It takes `&self`, reads only the stored command and screen, and issues the
revert unconditionally.  Translated from `alternate.rs` lines 66-69. -/
def to_main_screen (_a : AlternateScreen) (w : World) : Except Unit World :=
  ToAlternateScreenCommand.disable w

/-- `impl Drop for AlternateScreen`: `self.to_main_screen();` with the
`io::Result` discarded — the revert is attempted and any error is
swallowed (the function returns plain state, no error channel).
Translated from `alternate.rs` lines 72-77. -/
def drop (a : AlternateScreen) (w : World) : World :=
  match a.to_main_screen w with
  | Except.ok w' => w'
  | Except.error _ => w

end AlternateScreen

/-- Which backend family a command belongs to: the escape-sequence backend
or the native-console backend. -/
inductive BackendFamily where
  | escape
  | native
deriving DecidableEq

/-- Backend selection, performed anew at each mode-switch call.  On
non-Windows (`windows = false`) this is the source's unconditional use of
the shared escape-sequence command (`alternate.rs` line 51).  Modelled from
the spec for the Windows branch: `functions::get_module` and
`win_commands` are not among the source files; per the spec the native
backend is chosen exactly when a native console is present and its
escape-processing capability is disabled. -/
def selectBackend (windows vtEnabled : Bool) : BackendFamily :=
  if windows && !vtEnabled then BackendFamily.native else BackendFamily.escape

/-- The backend families issued over one process run: one selection per
mode-switch call, each against the capability state (`vtEnabled`) observed
at that call. -/
def familiesIssued (windows : Bool) (vts : List Bool) : List BackendFamily :=
  vts.map (selectBackend windows)

/-! Helper lemmas about the terminal interpretation of traces. -/

theorem interpAlt_append_enter (xs : List Ev) :
    interpAlt (xs ++ [Ev.enterAlt]) = true := by
  simp [interpAlt, List.foldl_append]

theorem interpAlt_append_leave (xs : List Ev) :
    interpAlt (xs ++ [Ev.leaveAlt]) = false := by
  simp [interpAlt, List.foldl_append]

theorem interpRaw_append_leave (xs : List Ev) :
    interpRaw (xs ++ [Ev.leaveAlt]) = interpRaw xs := by
  simp [interpRaw, List.foldl_append]

theorem interpAlt_append_leave_leave (xs : List Ev) :
    interpAlt (xs ++ [Ev.leaveAlt, Ev.leaveAlt]) = false := by
  simp [interpAlt, List.foldl_append]

theorem interpRaw_append_leave_leave (xs : List Ev) :
    interpRaw (xs ++ [Ev.leaveAlt, Ev.leaveAlt]) = interpRaw xs := by
  simp [interpRaw, List.foldl_append]

theorem interpAlt_append_enter_rawOn_leave (xs : List Ev) :
    interpAlt (xs ++ [Ev.enterAlt, Ev.rawOn, Ev.leaveAlt]) = false := by
  simp [interpAlt, List.foldl_append]

theorem interpRaw_append_enter_rawOn_leave (xs : List Ev) :
    interpRaw (xs ++ [Ev.enterAlt, Ev.rawOn, Ev.leaveAlt]) = true := by
  simp [interpRaw, List.foldl_append]

/-- C10: the escape-sequence command's `execute` and `undo` are total
functions mapping a write failure to the return value `false` and success
to `true`; being plain Lean functions into `Stdout × Bool` they never
panic and never propagate an error. -/
theorem c10_execute_undo_total (s : Stdout) :
    (ToAlternateScreenBufferCommand.execute s).2 = !s.failWrite
    ∧ (ToAlternateScreenBufferCommand.undo s).2 = !s.failWrite := by
  cases h : s.failWrite <;>
    simp [ToAlternateScreenBufferCommand.execute, ToAlternateScreenBufferCommand.undo, h]

/-- C3 counterexample: after a successful `execute` on a fresh stream the
written bytes sit in the stream's buffer and nothing has been flushed, so
the claim's "the stream is flushed after each write" is false. -/
theorem c3_counterexample :
    (ToAlternateScreenBufferCommand.execute ⟨[], [], false⟩).1.buffered ≠ []
    ∧ (ToAlternateScreenBufferCommand.execute ⟨[], [], false⟩).1.flushed = [] := by
  exact ⟨by decide, rfl⟩

/-- C3 as amended: on a successful write, `execute` appends exactly the
bytes `ESC [ ? 1 0 4 9 h` and `undo` exactly `ESC [ ? 1 0 4 9 l` to the
process standard output's buffer, returning `true`, with no flush
performed (the flushed portion is unchanged). -/
theorem c3_exact_sequences_not_flushed (s : Stdout) (h : s.failWrite = false) :
    ToAlternateScreenBufferCommand.execute s = ({ s with buffered := s.buffered ++ enterSeq }, true)
    ∧ ToAlternateScreenBufferCommand.undo s = ({ s with buffered := s.buffered ++ leaveSeq }, true)
    ∧ enterSeq = [27, 91, 63, 49, 48, 52, 57, 104]
    ∧ leaveSeq = [27, 91, 63, 49, 48, 52, 57, 108] := by
  refine ⟨?_, ?_, rfl, rfl⟩ <;>
    simp [ToAlternateScreenBufferCommand.execute, ToAlternateScreenBufferCommand.undo, h]

/-- Witness for C3 as amended, at the empty non-failing stream. -/
theorem c3_exact_sequences_not_flushed_witness :
    ToAlternateScreenBufferCommand.execute ⟨[], [], false⟩ = (⟨[] ++ enterSeq, [], false⟩, true)
    ∧ ToAlternateScreenBufferCommand.undo ⟨[], [], false⟩ = (⟨[] ++ leaveSeq, [], false⟩, true)
    ∧ enterSeq = [27, 91, 63, 49, 48, 52, 57, 104]
    ∧ leaveSeq = [27, 91, 63, 49, 48, 52, 57, 108] :=
  c3_exact_sequences_not_flushed ⟨[], [], false⟩ rfl

/-- C5 counterexample: `undo` on a fresh stream — no prior `execute` —
still emits the leave sequence, so the claim's "is a no-op and emits no
bytes" is false. -/
theorem c5_counterexample :
    (ToAlternateScreenBufferCommand.undo ⟨[], [], false⟩).1.buffered = leaveSeq
    ∧ leaveSeq ≠ [] := by
  exact ⟨rfl, by decide⟩

/-- C5 as amended: `undo` is stateless, so called without any prior
`execute` it returns success (when the write succeeds), never crashes, and
emits the leave sequence — a harmless repeat at the terminal rather than
an empty emission. -/
theorem c5_undo_without_apply (s : Stdout) (h : s.failWrite = false) :
    ToAlternateScreenBufferCommand.undo s = ({ s with buffered := s.buffered ++ leaveSeq }, true) := by
  simp [ToAlternateScreenBufferCommand.undo, h]

/-- Witness for C5 as amended, at a stream that never saw an apply. -/
theorem c5_undo_without_apply_witness :
    ToAlternateScreenBufferCommand.undo ⟨[], [], false⟩ = (⟨[] ++ leaveSeq, [], false⟩, true) :=
  c5_undo_without_apply ⟨[], [], false⟩ rfl

/-- C1 counterexample: with `apply` succeeding and raw-mode enabling
failing, `to_alternate_screen` returns the error yet the trace holds the
enter-alternate effect with no revert, so the alternate screen is still
active — the claimed revert-before-returning does not happen. -/
theorem c1_counterexample :
    (AlternateScreen.to_alternate_screen true ⟨[], false, true, false⟩).1 = Except.error ()
    ∧ interpAlt (AlternateScreen.to_alternate_screen true ⟨[], false, true, false⟩).2.trace = true := by
  exact ⟨rfl, rfl⟩

/-- C1 as amended: whenever `apply` succeeds but enabling raw mode fails,
`to_alternate_screen` returns the error without reverting — the only
effect issued is the enter-alternate one and the terminal is left with the
alternate screen active (a partial state change). -/
theorem c1_raw_failure_not_reverted (w : World)
    (hE : w.failEnable = false) (hR : w.failRaw = true) :
    AlternateScreen.to_alternate_screen true w
      = (Except.error (), { w with trace := w.trace ++ [Ev.enterAlt] })
    ∧ interpAlt (AlternateScreen.to_alternate_screen true w).2.trace = true := by
  have h1 : AlternateScreen.to_alternate_screen true w
      = (Except.error (), { w with trace := w.trace ++ [Ev.enterAlt] }) := by
    simp [AlternateScreen.to_alternate_screen, ToAlternateScreenCommand.enable,
      RawScreen.into_raw_mode, hE, hR]
  refine ⟨h1, ?_⟩
  rw [h1]
  exact interpAlt_append_enter w.trace

/-- Witness for C1 as amended, at the on-raw-failure world. -/
theorem c1_raw_failure_not_reverted_witness :
    AlternateScreen.to_alternate_screen true ⟨[], false, true, false⟩
      = (Except.error (), ⟨[Ev.enterAlt], false, true, false⟩)
    ∧ interpAlt (AlternateScreen.to_alternate_screen true ⟨[], false, true, false⟩).2.trace = true :=
  c1_raw_failure_not_reverted ⟨[], false, true, false⟩ rfl rfl

/-- C6: when the backend command's apply fails, `to_alternate_screen`
returns the error, produces no `AlternateScreen` handle, and leaves the
world unchanged — no partial state is retained for a later erroneous
revert. -/
theorem c6_apply_failure_no_handle (raw : Bool) (w : World) (h : w.failEnable = true) :
    AlternateScreen.to_alternate_screen raw w = (Except.error (), w) := by
  simp [AlternateScreen.to_alternate_screen, ToAlternateScreenCommand.enable, h]

/-- Witness for C6, at the failing-apply world. -/
theorem c6_apply_failure_no_handle_witness :
    AlternateScreen.to_alternate_screen false ⟨[], true, false, false⟩
      = (Except.error (), ⟨[], true, false, false⟩) :=
  c6_apply_failure_no_handle false ⟨[], true, false, false⟩ rfl

/-- C2 counterexample: entering with raw mode and then dropping the handle
yields the trace enter-alternate, raw-on, leave-alternate — raw mode is
never disabled, so the terminal ends with the main screen shown while
still in raw mode, contradicting the claimed disable-raw-then-restore
order and the cooked final state. -/
theorem c2_counterexample :
    (AlternateScreen.drop (AlternateScreen.new () (Screen.ofOutput ()))
        (AlternateScreen.to_alternate_screen true ⟨[], false, false, false⟩).2).trace
      = [Ev.enterAlt, Ev.rawOn, Ev.leaveAlt]
    ∧ interpAlt [Ev.enterAlt, Ev.rawOn, Ev.leaveAlt] = false
    ∧ interpRaw [Ev.enterAlt, Ev.rawOn, Ev.leaveAlt] = true := by
  exact ⟨rfl, rfl, rfl⟩

/-- C2 as amended: leaving the alternate screen (explicitly or on drop)
restores the main buffer only and never disables raw mode: for a raw
entry followed by a drop, the full effect trace is enter-alternate, raw-on,
leave-alternate — no raw-off is emitted, and the terminal ends showing the
main screen while still in raw mode. -/
theorem c2_leave_restores_buffer_only (w : World)
    (hE : w.failEnable = false) (hR : w.failRaw = false) (hD : w.failDisable = false)
    (a : AlternateScreen) (w1 : World)
    (h : AlternateScreen.to_alternate_screen true w = (Except.ok a, w1)) :
    (AlternateScreen.drop a w1).trace = w.trace ++ [Ev.enterAlt, Ev.rawOn, Ev.leaveAlt]
    ∧ interpAlt (AlternateScreen.drop a w1).trace = false
    ∧ interpRaw (AlternateScreen.drop a w1).trace = true := by
  simp [AlternateScreen.to_alternate_screen, ToAlternateScreenCommand.enable,
    RawScreen.into_raw_mode, hE, hR] at h
  obtain ⟨-, hw⟩ := h
  have hdrop : (AlternateScreen.drop a w1).trace
      = w.trace ++ [Ev.enterAlt, Ev.rawOn, Ev.leaveAlt] := by
    rw [← hw]
    simp [AlternateScreen.drop, AlternateScreen.to_main_screen,
      ToAlternateScreenCommand.disable, hD]
  refine ⟨hdrop, ?_, ?_⟩
  · rw [hdrop]; exact interpAlt_append_enter_rawOn_leave w.trace
  · rw [hdrop]; exact interpRaw_append_enter_rawOn_leave w.trace

/-- Witness for C2 as amended, at the no-failure world. -/
theorem c2_leave_restores_buffer_only_witness :
    (AlternateScreen.drop (AlternateScreen.new () (Screen.ofOutput ()))
        ⟨[Ev.enterAlt, Ev.rawOn], false, false, false⟩).trace
      = [] ++ [Ev.enterAlt, Ev.rawOn, Ev.leaveAlt]
    ∧ interpAlt (AlternateScreen.drop (AlternateScreen.new () (Screen.ofOutput ()))
        ⟨[Ev.enterAlt, Ev.rawOn], false, false, false⟩).trace = false
    ∧ interpRaw (AlternateScreen.drop (AlternateScreen.new () (Screen.ofOutput ()))
        ⟨[Ev.enterAlt, Ev.rawOn], false, false, false⟩).trace = true :=
  c2_leave_restores_buffer_only ⟨[], false, false, false⟩ rfl rfl rfl
    (AlternateScreen.new () (Screen.ofOutput ()))
    ⟨[Ev.enterAlt, Ev.rawOn], false, false, false⟩ rfl

/-- C4: dropping an `AlternateScreen` invokes the revert to main screen —
when the revert succeeds, `drop` yields exactly the reverted world that
`to_main_screen` produces — and when the revert fails, `drop` still
returns a plain world (the error is swallowed: `drop` has no error
channel, so nothing propagates or aborts). -/
theorem c4_drop_invokes_revert_and_swallows (a : AlternateScreen) (w : World) :
    (w.failDisable = false →
      AlternateScreen.drop a w = { w with trace := w.trace ++ [Ev.leaveAlt] }
      ∧ a.to_main_screen w = Except.ok (AlternateScreen.drop a w))
    ∧ (w.failDisable = true →
      AlternateScreen.drop a w = w ∧ a.to_main_screen w = Except.error ()) := by
  cases h : w.failDisable <;>
    simp [AlternateScreen.drop, AlternateScreen.to_main_screen,
      ToAlternateScreenCommand.disable, h]

/-- Witness for C4, at a succeeding world and a failing world. -/
theorem c4_drop_invokes_revert_and_swallows_witness :
    (AlternateScreen.drop (AlternateScreen.new () (Screen.ofOutput ())) ⟨[], false, false, false⟩
        = ⟨[Ev.leaveAlt], false, false, false⟩
      ∧ AlternateScreen.to_main_screen (AlternateScreen.new () (Screen.ofOutput ())) ⟨[], false, false, false⟩
        = Except.ok (AlternateScreen.drop (AlternateScreen.new () (Screen.ofOutput ())) ⟨[], false, false, false⟩))
    ∧ (AlternateScreen.drop (AlternateScreen.new () (Screen.ofOutput ())) ⟨[], false, false, true⟩
        = ⟨[], false, false, true⟩
      ∧ AlternateScreen.to_main_screen (AlternateScreen.new () (Screen.ofOutput ())) ⟨[], false, false, true⟩
        = Except.error ()) :=
  ⟨(c4_drop_invokes_revert_and_swallows (AlternateScreen.new () (Screen.ofOutput ()))
      ⟨[], false, false, false⟩).1 rfl,
   (c4_drop_invokes_revert_and_swallows (AlternateScreen.new () (Screen.ofOutput ()))
      ⟨[], false, false, true⟩).2 rfl⟩

/-- C7: calling `to_main_screen` twice in a row has the same observable
terminal effect as calling it once — after the second call the interpreted
buffer and raw-mode states are unchanged from after the first, and the
second call merely appends one more copy of the leave-alternate effect (a
harmless repeat of the same sequence). -/
theorem c7_revert_idempotent (a : AlternateScreen) (w w1 w2 : World)
    (h1 : a.to_main_screen w = Except.ok w1) (h2 : a.to_main_screen w1 = Except.ok w2) :
    interpAlt w2.trace = interpAlt w1.trace
    ∧ interpRaw w2.trace = interpRaw w1.trace
    ∧ w2.trace = w1.trace ++ [Ev.leaveAlt] := by
  by_cases hw : w.failDisable = true
  · simp [AlternateScreen.to_main_screen, ToAlternateScreenCommand.disable, hw] at h1
  · simp [AlternateScreen.to_main_screen, ToAlternateScreenCommand.disable, hw] at h1
    subst h1
    simp [AlternateScreen.to_main_screen, ToAlternateScreenCommand.disable, hw] at h2
    subst h2
    simp [interpAlt_append_leave, interpRaw_append_leave,
      interpAlt_append_leave_leave, interpRaw_append_leave_leave]

/-- Witness for C7, at the no-failure world. -/
theorem c7_revert_idempotent_witness :
    interpAlt [Ev.leaveAlt, Ev.leaveAlt] = interpAlt [Ev.leaveAlt]
    ∧ interpRaw [Ev.leaveAlt, Ev.leaveAlt] = interpRaw [Ev.leaveAlt]
    ∧ [Ev.leaveAlt, Ev.leaveAlt] = [Ev.leaveAlt] ++ [Ev.leaveAlt] := by
  have h := c7_revert_idempotent (AlternateScreen.new () (Screen.ofOutput ()))
    ⟨[], false, false, false⟩ ⟨[Ev.leaveAlt], false, false, false⟩
    ⟨[Ev.leaveAlt, Ev.leaveAlt], false, false, false⟩ rfl rfl
  exact h

/-- C9: `to_main_screen` takes the handle by shared reference and reads
none of its contents — any two handles produce identical results on every
world — and since `AlternateScreen` has no field recording whether the
alternate screen is active, every call unconditionally issues the revert
command, whatever the prior trace. -/
theorem c9_to_main_screen_frame :
    (∀ (a1 a2 : AlternateScreen) (w : World), a1.to_main_screen w = a2.to_main_screen w)
    ∧ (∀ (a : AlternateScreen) (w : World), w.failDisable = false →
        a.to_main_screen w = Except.ok { w with trace := w.trace ++ [Ev.leaveAlt] }) := by
  constructor
  · intro a1 a2 w
    rfl
  · intro a w h
    simp [AlternateScreen.to_main_screen, ToAlternateScreenCommand.disable, h]

/-- Witness for C9, at a world whose trace already shows the main screen —
the revert is issued all the same. -/
theorem c9_to_main_screen_frame_witness :
    AlternateScreen.to_main_screen (AlternateScreen.new () (Screen.ofOutput ()))
      ⟨[Ev.leaveAlt], false, false, false⟩
      = Except.ok ⟨[Ev.leaveAlt, Ev.leaveAlt], false, false, false⟩ :=
  c9_to_main_screen_frame.2 (AlternateScreen.new () (Screen.ofOutput ()))
    ⟨[Ev.leaveAlt], false, false, false⟩ rfl

/-- C8 counterexample: on the modelled Windows platform, a run of two
mode-switch calls during which the console's escape-processing capability
is toggled issues commands of both backend families, so the claimed
one-family-per-process-run exclusivity is false. -/
theorem c8_counterexample :
    BackendFamily.escape ∈ familiesIssued true [true, false]
    ∧ BackendFamily.native ∈ familiesIssued true [true, false] := by
  exact ⟨by decide, by decide⟩

/-- C8 as amended: backend selection runs anew at each mode-switch call
(`familiesIssued` evaluates the selector on the capability state observed
at each call), and on non-Windows it always yields the escape-sequence
backend, so on non-Windows only that one family is ever issued in a run;
per-run exclusivity is not guaranteed on Windows when the capability
changes between calls. -/
theorem c8_backend_selection_non_windows :
    (∀ vt : Bool, selectBackend false vt = BackendFamily.escape)
    ∧ (∀ (vts : List Bool) (f : BackendFamily),
        f ∈ familiesIssued false vts → f = BackendFamily.escape) := by
  constructor
  · intro vt
    rfl
  · intro vts f hf
    obtain ⟨a, -, hfa⟩ := List.mem_map.mp hf
    exact hfa.symm.trans rfl

/-- Witness for C8 as amended, on a two-call non-Windows run. -/
theorem c8_backend_selection_non_windows_witness :
    BackendFamily.escape ∈ familiesIssued false [true, false]
    ∧ BackendFamily.escape = BackendFamily.escape :=
  ⟨by decide,
   c8_backend_selection_non_windows.2 [true, false] BackendFamily.escape (by decide)⟩
